import Mathlib

/-!
Verification of the Video Reference Resolution & Download Pipeline
(shallow embedding of `api.py`, `src/api/parse.py`, `src/api/download.py`,
`app.py` of the repository).

Code that lives outside the repository snapshot (the `configs` and `utils`
modules, and the per-platform downloader classes) enters the embedding as
abstract parameters: the domain→platform table result, the allow-list
`MINI_PROGRAM_LEGAL_DOMAIN`, `UrlParser.get_domain`, `convert_to_https`,
and the extraction results of each freshly constructed downloader instance.
The control flow proved about here is the control flow written in the
repository's own files.
-/

namespace VideoParser

/-- The three (plus one, for the platform with separated tracks) accessor
results of one freshly constructed platform downloader instance:
`get_title_content`, `get_real_video_url`, `get_cover_photo_url`, and
`get_audio_url`.  A `none` field models the Python `None` that the
accessors return when the page yields nothing. -/
structure ExtractResult where
  title : Option String
  video_url : Option String
  cover_url : Option String
  audio_url : Option String
deriving Repr, DecidableEq

/-- The body of the Xiaohongshu retry loop of `parse_video` (`api.py`
lines 221-234, identically `src/api/parse.py` lines 52-65).

`ext n` is the result of the `n`-th (0-based) call to
`DownloaderFactory.create_downloader`: each loop iteration constructs a
fresh instance, so successive iterations read successive indices.
`last` carries the `title/video_url/cover_url` variables across
iterations (they survive the loop when the fuel runs out), `constructed`
counts the instances constructed so far, and the fuel is
`max_attempts - attempts`.  The result is the pair
(number of instances constructed, final variable values). -/
def retryGo (ext : Nat → ExtractResult) :
    ExtractResult → Nat → Nat → Nat × ExtractResult
  | last, constructed, 0 => (constructed, last)
  | _, constructed, fuel + 1 =>
    let r := ext constructed
    if r.video_url.isSome then (constructed + 1, r)
    else retryGo ext r (constructed + 1) fuel

/-- The whole Xiaohongshu branch: `title = cover_url = video_url = None`,
then the `while attempts < max_attempts` loop. -/
def xhsResolve (ext : Nat → ExtractResult) (maxAttempts : Nat) :
    Nat × ExtractResult :=
  retryGo ext ⟨none, none, none, none⟩ 0 maxAttempts

/-- One-step unfolding of the retry loop. -/
theorem retryGo_succ (ext : Nat → ExtractResult) (last : ExtractResult)
    (constructed fuel : Nat) :
    retryGo ext last constructed (fuel + 1) =
      if (ext constructed).video_url.isSome then (constructed + 1, ext constructed)
      else retryGo ext (ext constructed) (constructed + 1) fuel := rfl

/-- If the first `i` constructions starting at `constructed` yield no
video URL and the `(i+1)`-st yields one, the loop stops right there. -/
theorem retryGo_first_some (ext : Nat → ExtractResult) :
    ∀ (i fuel constructed : Nat) (last : ExtractResult) (u : String),
      i < fuel →
      (∀ j, j < i → (ext (constructed + j)).video_url = none) →
      (ext (constructed + i)).video_url = some u →
      retryGo ext last constructed fuel =
        (constructed + i + 1, ext (constructed + i)) := by
  intro i
  induction i with
  | zero =>
    intro fuel constructed last u hif _h0 hsome
    match fuel, hif with
    | fuel + 1, _ =>
      rw [Nat.add_zero] at hsome
      rw [retryGo_succ, hsome]
      simp
  | succ i ih =>
    intro fuel constructed last u hif h0 hsome
    match fuel, hif with
    | fuel + 1, hif =>
      have hc : (ext constructed).video_url = none := by
        simpa using h0 0 (Nat.succ_pos i)
      have harith : constructed + 1 + i = constructed + (i + 1) := by omega
      have hrec := ih fuel (constructed + 1) (ext constructed) u
        (Nat.lt_of_succ_lt_succ hif)
        (fun j hj => by
          have := h0 (j + 1) (Nat.succ_lt_succ hj)
          have hj' : constructed + 1 + j = constructed + (j + 1) := by omega
          rw [hj']
          exact this)
        (by rw [harith]; exact hsome)
      rw [retryGo_succ, hc]
      simp only [Option.isSome_none, Bool.false_eq_true, if_false]
      rw [hrec, harith]

/-- If every construction in the window yields no video URL, the loop
exhausts its fuel; the final variables are those of the last
construction. -/
theorem retryGo_exhaust (ext : Nat → ExtractResult) :
    ∀ (f constructed : Nat) (last : ExtractResult),
      (∀ j, j < f + 1 → (ext (constructed + j)).video_url = none) →
      retryGo ext last constructed (f + 1) =
        (constructed + f + 1, ext (constructed + f)) := by
  intro f
  induction f with
  | zero =>
    intro constructed last h
    have hc : (ext constructed).video_url = none := by
      simpa using h 0 (Nat.lt_succ_self 0)
    rw [retryGo_succ, hc]
    simp [retryGo]
  | succ f ih =>
    intro constructed last h
    have hc : (ext constructed).video_url = none := by
      simpa using h 0 (Nat.succ_pos (f + 1))
    have hrec := ih (constructed + 1) (ext constructed)
      (fun j hj => by
        have := h (j + 1) (Nat.succ_lt_succ hj)
        have hj' : constructed + 1 + j = constructed + (j + 1) := by omega
        rw [hj']
        exact this)
    rw [retryGo_succ, hc]
    simp only [Option.isSome_none, Bool.false_eq_true, if_false]
    rw [hrec]
    have h1 : constructed + 1 + f + 1 = constructed + (f + 1) + 1 := by omega
    have h2 : constructed + 1 + f = constructed + (f + 1) := by omega
    rw [h1, h2]

/-- With `max_attempts = 5` and no construction ever yielding a video
URL, the loop makes exactly 5 constructions and ends on the 5th's
(empty) result. -/
theorem xhsResolve_exhaust (ext : Nat → ExtractResult)
    (hnone : ∀ j, j < 5 → (ext j).video_url = none) :
    xhsResolve ext 5 = (5, ext 4) := by
  have h := retryGo_exhaust ext 4 0 ⟨none, none, none, none⟩
    (fun j hj => by simpa using hnone j (by omega))
  unfold xhsResolve
  rw [show (5 : Nat) = 4 + 1 from rfl, h]

/-- C1: in the Xiaohongshu retry loop with `max_attempts = 5` a fresh
extractor instance is constructed on every attempt (modelled by indexing
constructions); if the extractor yields a non-null `video_url` for the
first time on the k-th construction (1 ≤ k ≤ 5) then exactly k instances
are constructed and the result carries that URL; if all 5 constructions
yield a null `video_url` then exactly 5 instances are constructed and the
loop terminates with `video_url = none` (the model is a total function:
no exception is raised). -/
theorem xhs_retry_policy (ext : Nat → ExtractResult) :
    (∀ k u, 1 ≤ k → k ≤ 5 →
      (∀ j, j < k - 1 → (ext j).video_url = none) →
      (ext (k - 1)).video_url = some u →
      (xhsResolve ext 5).1 = k ∧ (xhsResolve ext 5).2.video_url = some u)
    ∧
    ((∀ j, j < 5 → (ext j).video_url = none) →
      (xhsResolve ext 5).1 = 5 ∧ (xhsResolve ext 5).2.video_url = none) := by
  constructor
  · intro k u hk1 hk5 hnone hsome
    have hi : k - 1 < 5 := by omega
    have h := retryGo_first_some ext (k - 1) 5 0 ⟨none, none, none, none⟩ u
      hi (fun j hj => by simpa using hnone j hj)
      (by simpa using hsome)
    unfold xhsResolve
    rw [h]
    refine ⟨by simp; omega, ?_⟩
    simpa using hsome
  · intro hnone
    rw [xhsResolve_exhaust ext hnone]
    exact ⟨rfl, by simpa using hnone 4 (by omega)⟩

/-- Extractor with a video URL only on the third construction. -/
def extThird : Nat → ExtractResult := fun n =>
  if n = 2 then ⟨some "t", some "u", some "c", none⟩
  else ⟨none, none, none, none⟩

/-- Extractor that never yields a video URL. -/
def extNever : Nat → ExtractResult := fun _ => ⟨none, none, none, none⟩

/-- Witness for C1: success on the 3rd construction gives 3 constructions
and that URL; five empty constructions give 5 constructions and no URL. -/
theorem xhs_retry_policy_witness :
    ((xhsResolve extThird 5).1 = 3 ∧
      (xhsResolve extThird 5).2.video_url = some "u")
    ∧
    ((xhsResolve extNever 5).1 = 5 ∧
      (xhsResolve extNever 5).2.video_url = none) :=
  ⟨(xhs_retry_policy extThird).1 3 "u" (by decide) (by decide)
      (by decide) (by decide),
    (xhs_retry_policy extNever).2 (fun j _ => rfl)⟩

/-- Modelled from the spec: `to_https` rewrites an `http://` scheme to
`https://` for known hosts and passes malformed input through unchanged
(`utils.web_fetcher.UrlParser.convert_to_https` is not in the snapshot).
The rewrite itself is an abstract parameter `toHttps`; at the call sites
of `parse_video` it is applied to nullable values, and a null input
passes through as null. -/
def convert_to_https (toHttps : String → String) :
    Option String → Option String :=
  Option.map toHttps

/-- The `data_dict` assembled by `parse_video` on its success path
(`api.py` lines 245-257): `audio_url` is added only for the 哔哩哔哩
platform when the downloader has the audio capability and it yields a
URL. -/
structure ParseData where
  video_id : Option String
  platform : String
  title : Option String
  video_url : Option String
  cover_url : Option String
  audio_url : Option String
deriving Repr, DecidableEq

/-- A response of the parse endpoint: HTTP status, the `make_response`
fields `retcode`, `retdesc`, `succ`, and the `data` record (`none` models
the Python `data=None` of the failure responses). -/
structure ParseResp where
  status : Nat
  retcode : Nat
  retdesc : String
  succ : Bool
  dataRec : Option ParseData
deriving Repr, DecidableEq

/-- `parse_video` from the platform lookup onward (`api.py` lines
210-263, identically `src/api/parse.py` lines 42-84).

Abstract inputs standing for code outside the snapshot: `toHttps` (the
HTTPS rewrite), `platform` (the result of
`DOMAIN_TO_NAME.get(UrlParser.get_domain(redirect_url))`), `videoId`
(`UrlParser.get_video_id`), `ext` (results of successive
`DownloaderFactory.create_downloader` instances) and `hasAudio` (the
`hasattr(downloader, 'get_audio_url')` capability check).

Returns the response together with the number of downloader instances
constructed while handling the request. -/
def parse_video (toHttps : String → String) (platform : Option String)
    (videoId : Option String) (ext : Nat → ExtractResult)
    (hasAudio : Bool) : ParseResp × Nat :=
  match platform with
  | none => (⟨400, 400, "该链接尚未支持提取", false, none⟩, 0)
  | some p =>
    let cr : Nat × ExtractResult :=
      if p = "小红书" then xhsResolve ext 5 else (1, ext 0)
    let r := cr.2
    let data : ParseData :=
      { video_id := videoId
        platform := p
        title := r.title
        video_url := convert_to_https toHttps r.video_url
        cover_url := convert_to_https toHttps r.cover_url
        audio_url :=
          if p = "哔哩哔哩" ∧ hasAudio = true then
            match r.audio_url with
            | some a => some (toHttps a)
            | none => none
          else none }
    (⟨200, 200, "成功", true, some data⟩, cr.1)

/-- C7: when the domain maps to no supported platform the pipeline stops
before extraction: the response is the unsupported-link error (HTTP 400,
`retcode` 400, `succ = false`, no data) and zero downloader instances
are constructed. -/
theorem unsupported_platform_stops (toHttps : String → String)
    (videoId : Option String) (ext : Nat → ExtractResult)
    (hasAudio : Bool) :
    parse_video toHttps none videoId ext hasAudio =
      (⟨400, 400, "该链接尚未支持提取", false, none⟩, 0) := rfl

/-- C6 counterexample: with the flaky platform (小红书) and an extractor
that yields no video URL on any of the 5 attempts, `parse_video` does
not return any tagged `extraction_failed` failure: it returns the
success-shaped structured record itself — HTTP 200, `retcode` 200,
`retdesc` "成功", `succ = true` — whose `video_url` field is null. -/
theorem extraction_empty_not_tagged :
    parse_video id (some "小红书") (some "vid1") extNever false =
      (⟨200, 200, "成功", true,
        some ⟨some "vid1", "小红书", none, none, none, none⟩⟩, 5) := by
  decide

/-- C6 (amended): for every recognized platform `p`, when extraction
yields no usable video URL after all of that platform's configured
attempts (5 for the flaky 小红书 platform, the single attempt
otherwise), the operation returns the success-shaped structured record
with `video_url = null` (HTTP 200, `retcode` 200, `succ = true`) rather
than a tagged failure. -/
theorem extraction_empty_returns_success_shape (toHttps : String → String)
    (p : String) (videoId : Option String) (ext : Nat → ExtractResult)
    (hasAudio : Bool)
    (hnone : ∀ j, j < (if p = "小红书" then 5 else 1) →
      (ext j).video_url = none) :
    (parse_video toHttps (some p) videoId ext hasAudio).1.status = 200 ∧
    (parse_video toHttps (some p) videoId ext hasAudio).1.retcode = 200 ∧
    (parse_video toHttps (some p) videoId ext hasAudio).1.retdesc = "成功" ∧
    (parse_video toHttps (some p) videoId ext hasAudio).1.succ = true ∧
    ∃ d, (parse_video toHttps (some p) videoId ext hasAudio).1.dataRec
        = some d ∧ d.video_url = none := by
  by_cases hp : p = "小红书"
  · subst hp
    have hres := xhsResolve_exhaust ext
      (fun j hj => hnone j (by simpa using hj))
    have h4 : (ext 4).video_url = none := hnone 4 (by simp)
    simp only [parse_video, if_pos rfl]
    refine ⟨trivial, trivial, trivial, trivial, ?_⟩
    refine ⟨_, rfl, ?_⟩
    simp [convert_to_https, hres, h4]
  · have h0 : (ext 0).video_url = none := hnone 0 (by simp [hp])
    simp only [parse_video, if_neg hp]
    refine ⟨trivial, trivial, trivial, trivial, ?_⟩
    refine ⟨_, rfl, ?_⟩
    simp [convert_to_https, h0]

/-- Witness for C6's amended theorem at a concrete all-empty extractor,
exercising both the 5-attempt (小红书) and the single-attempt (抖音)
branch. -/
theorem extraction_empty_returns_success_shape_witness :
    ((parse_video id (some "小红书") (some "vid2") extNever false).1.succ
        = true ∧
      ∃ d, (parse_video id (some "小红书") (some "vid2") extNever
          false).1.dataRec = some d ∧ d.video_url = none) ∧
    ((parse_video id (some "抖音") (some "vid3") extNever false).1.succ
        = true ∧
      ∃ d, (parse_video id (some "抖音") (some "vid3") extNever
          false).1.dataRec = some d ∧ d.video_url = none) := by
  have h1 := extraction_empty_returns_success_shape id "小红书"
    (some "vid2") extNever false (fun j _ => rfl)
  have h2 := extraction_empty_returns_success_shape id "抖音"
    (some "vid3") extNever false (fun j _ => rfl)
  exact ⟨⟨h1.2.2.2.1, h1.2.2.2.2⟩, ⟨h2.2.2.2.1, h2.2.2.2.2⟩⟩

/-- The body of a `/api/download` request: `video_url` and `video_id`. -/
structure DlRequest where
  video_url : String
  video_id : String
deriving Repr, DecidableEq

/-- Outcome of the one server-side fetch of the download branch
(`api.py` lines 338-362, identically `src/api/download.py` lines 65-83):
`connectError` models a `RequestException`/`ConnectionError` raised by
`session.get`/`raise_for_status` (before the target file is opened);
`saveError` models a `ChunkedEncodingError`/`IOError` raised while
streaming chunks into the already-opened target file; `ok` models a
fully streamed body. -/
inductive FetchOutcome
  | connectError
  | saveError
  | ok
deriving Repr, DecidableEq

/-- A response of the download endpoint: HTTP status, `retcode`,
`retdesc`, `succ`, and the `download_url` field of `data` (`none` models
`data=None` of the failure responses). -/
structure ApiResp where
  status : Nat
  retcode : Nat
  retdesc : String
  dl_url : Option String
  succ : Bool
deriving Repr, DecidableEq

/-- Result of one run of the download operation: the response, the file
system afterwards (the list of paths that exist), and the number of HTTP
fetches (`session.get` calls) performed. -/
structure DlOutcome where
  resp : ApiResp
  fs : List String
  fetches : Nat
deriving Repr, DecidableEq

/-- `if os.path.exists(video_path): os.remove(video_path)` — the partial
file cleanup of the save-failure handler. -/
def removeIfExists (fs : List String) (p : String) : List String :=
  if p ∈ fs then fs.erase p else fs

/-- `download_video` from the domain check onward (`api.py` lines
289-370, identically `src/api/download.py` lines 16-97).

Abstract inputs standing for code outside the snapshot: `allowList`
(`MINI_PROGRAM_LEGAL_DOMAIN`), `getDomain` (`UrlParser.get_domain`),
`saveDir` (`SAVE_VIDEO_PATH`; `os.path.join` is modelled as
path-separator concatenation) and `cfgDomain` (`DOMAIN`, with the
Python falsy check `DOMAIN or "http://localhost:5001"`).  `fetch` is the
outcome of the server-side fetch, consulted only when one happens; `fs`
is the set of existing paths before the call.  Header construction
(`User-Agent`, `Referer`) does not influence any branch and is omitted;
in a `saveError` outcome the target file has been created by `open`
before the handler deletes it. -/
def download_video (allowList : List String) (getDomain : String → String)
    (saveDir : String) (cfgDomain : String) (fetch : FetchOutcome)
    (fs : List String) (req : DlRequest) : DlOutcome :=
  let domain := getDomain req.video_url
  if domain ∈ allowList then
    ⟨⟨200, 200, "成功", some req.video_url, true⟩, fs, 0⟩
  else
    let video_filename := req.video_id ++ ".mp4"
    let video_path := saveDir ++ "/" ++ video_filename
    let current_domain :=
      if cfgDomain = "" then "http://localhost:5001" else cfgDomain
    if video_path ∈ fs then
      ⟨⟨200, 200, "成功",
        some (current_domain ++ "/static/videos/" ++ video_filename),
        true⟩, fs, 0⟩
    else
      match fetch with
      | .connectError =>
        ⟨⟨200, 200, "服务器下载失败，返回原始链接", some req.video_url,
          true⟩, fs, 1⟩
      | .saveError =>
        ⟨⟨200, 200, "服务器下载失败，返回原始链接", some req.video_url,
          true⟩, removeIfExists (video_path :: fs) video_path, 1⟩
      | .ok =>
        ⟨⟨200, 200, "成功",
          some (current_domain ++ "/static/videos/" ++ video_filename),
          true⟩, video_path :: fs, 1⟩

/-- The endpoint including `validate_request_headers`: a validation
error short-circuits everything (`api.py` lines 293-295). -/
def download_endpoint (validationError : Option ApiResp)
    (allowList : List String) (getDomain : String → String)
    (saveDir : String) (cfgDomain : String) (fetch : FetchOutcome)
    (fs : List String) (req : DlRequest) : DlOutcome :=
  match validationError with
  | some e => ⟨e, fs, 0⟩
  | none => download_video allowList getDomain saveDir cfgDomain fetch fs req

/-- C2: when the server-side download fails while streaming into the
target path (a mid-stream or write failure, `fetch = saveError`), the
target path does not exist after the operation returns its failure
response: the handler deletes the partially written file. -/
theorem save_failure_cleans_partial_file (allowList : List String)
    (getDomain : String → String) (saveDir cfgDomain : String)
    (fs : List String) (req : DlRequest)
    (hdom : getDomain req.video_url ∉ allowList)
    (hpath : saveDir ++ "/" ++ (req.video_id ++ ".mp4") ∉ fs) :
    (saveDir ++ "/" ++ (req.video_id ++ ".mp4")) ∉
      (download_video allowList getDomain saveDir cfgDomain
        FetchOutcome.saveError fs req).fs ∧
    (download_video allowList getDomain saveDir cfgDomain
        FetchOutcome.saveError fs req).resp.retdesc
      = "服务器下载失败，返回原始链接" := by
  simp only [download_video, if_neg hdom, if_neg hpath]
  constructor
  · simp only [removeIfExists, List.mem_cons, true_or, if_pos,
      List.erase_cons_head]
    exact hpath
  · trivial

/-- Witness for C2 at a concrete request. -/
theorem save_failure_cleans_partial_file_witness :
    ("videos" ++ "/" ++ ("v9" ++ ".mp4")) ∉
      (download_video [] (fun _ => "remote.example.com") "videos" ""
        FetchOutcome.saveError [] ⟨"https://remote.example.com/a", "v9"⟩).fs :=
  (save_failure_cleans_partial_file [] (fun _ => "remote.example.com")
    "videos" "" [] ⟨"https://remote.example.com/a", "v9"⟩
    (by decide) (by decide)).1

/-- C3: for a non-allow-listed domain, a download failure (connection
failure or failure while saving) is not surfaced as a hard error: the
response is success-shaped (HTTP 200, `retcode` 200, `succ = true`) and
its `download_url` is the original remote `video_url` unchanged. -/
theorem download_failure_falls_back (allowList : List String)
    (getDomain : String → String) (saveDir cfgDomain : String)
    (fetch : FetchOutcome) (fs : List String) (req : DlRequest)
    (hdom : getDomain req.video_url ∉ allowList)
    (hpath : saveDir ++ "/" ++ (req.video_id ++ ".mp4") ∉ fs)
    (hfail : fetch = FetchOutcome.connectError ∨
      fetch = FetchOutcome.saveError) :
    (download_video allowList getDomain saveDir cfgDomain fetch fs
        req).resp =
      ⟨200, 200, "服务器下载失败，返回原始链接", some req.video_url,
        true⟩ := by
  rcases hfail with h | h <;>
    simp [download_video, if_neg hdom, if_neg hpath, h]

/-- Witness for C3 at a concrete failing connection. -/
theorem download_failure_falls_back_witness :
    (download_video [] (fun _ => "remote.example.com") "videos" ""
        FetchOutcome.connectError []
        ⟨"https://remote.example.com/a", "v8"⟩).resp =
      ⟨200, 200, "服务器下载失败，返回原始链接",
        some "https://remote.example.com/a", true⟩ :=
  download_failure_falls_back [] (fun _ => "remote.example.com")
    "videos" "" FetchOutcome.connectError []
    ⟨"https://remote.example.com/a", "v8"⟩ (by decide) (by decide)
    (Or.inl rfl)

/-- C4: when the `video_url` domain is on the allow-list the operation
is a pass-through: the response carries the input URL unchanged, no HTTP
fetch happens and the file system is untouched. -/
theorem allowlisted_domain_passthrough (allowList : List String)
    (getDomain : String → String) (saveDir cfgDomain : String)
    (fetch : FetchOutcome) (fs : List String) (req : DlRequest)
    (hdom : getDomain req.video_url ∈ allowList) :
    download_video allowList getDomain saveDir cfgDomain fetch fs req =
      ⟨⟨200, 200, "成功", some req.video_url, true⟩, fs, 0⟩ := by
  simp [download_video, if_pos hdom]

/-- Witness for C4 at a concrete allow-listed request. -/
theorem allowlisted_domain_passthrough_witness :
    download_video ["legal.example.com"] (fun _ => "legal.example.com")
        "videos" "" FetchOutcome.ok [] ⟨"https://legal.example.com/a", "v7"⟩ =
      ⟨⟨200, 200, "成功", some "https://legal.example.com/a", true⟩, [], 0⟩ :=
  allowlisted_domain_passthrough ["legal.example.com"]
    (fun _ => "legal.example.com") "videos" "" FetchOutcome.ok []
    ⟨"https://legal.example.com/a", "v7"⟩ (by decide)

/-- C5 counterexample: the claim quantifies over every materialize
request whose target file exists, but an allow-listed request is a
pass-through regardless of the cached file: with the file
`videos/v1.mp4` present, the response's `download_url` is the remote
input URL, not the local `{domain}/static/videos/v1.mp4` URL. -/
theorem file_present_not_always_local_url :
    (download_video ["legal.example.com"] (fun _ => "legal.example.com")
        "videos" "" FetchOutcome.ok ["videos/v1.mp4"]
        ⟨"https://legal.example.com/v1.mp4", "v1"⟩).resp.dl_url
      = some "https://legal.example.com/v1.mp4" ∧
    (download_video ["legal.example.com"] (fun _ => "legal.example.com")
        "videos" "" FetchOutcome.ok ["videos/v1.mp4"]
        ⟨"https://legal.example.com/v1.mp4", "v1"⟩).resp.dl_url
      ≠ some ("http://localhost:5001" ++ "/static/videos/" ++ "v1.mp4") := by
  decide

/-- C5 (amended): restricted to requests whose `video_url` domain is not
on the allow-list, the operation is idempotent by file presence.  A
first successful call downloads once and returns the local
`{domain}/static/videos/{video_id}.mp4` URL; a second call for the same
`video_id` finds the file, performs no fetch and no write, and returns
the same local `download_url`. -/
theorem download_idempotent_by_presence (allowList : List String)
    (getDomain : String → String) (saveDir cfgDomain : String)
    (fetch2 : FetchOutcome) (fs : List String) (req : DlRequest)
    (hdom : getDomain req.video_url ∉ allowList)
    (hpath : saveDir ++ "/" ++ (req.video_id ++ ".mp4") ∉ fs) :
    (download_video allowList getDomain saveDir cfgDomain
        FetchOutcome.ok fs req).resp.succ = true ∧
    (download_video allowList getDomain saveDir cfgDomain fetch2
        (download_video allowList getDomain saveDir cfgDomain
          FetchOutcome.ok fs req).fs req).fetches = 0 ∧
    (download_video allowList getDomain saveDir cfgDomain fetch2
        (download_video allowList getDomain saveDir cfgDomain
          FetchOutcome.ok fs req).fs req).fs =
      (download_video allowList getDomain saveDir cfgDomain
        FetchOutcome.ok fs req).fs ∧
    (download_video allowList getDomain saveDir cfgDomain fetch2
        (download_video allowList getDomain saveDir cfgDomain
          FetchOutcome.ok fs req).fs req).resp.dl_url =
      (download_video allowList getDomain saveDir cfgDomain
        FetchOutcome.ok fs req).resp.dl_url ∧
    (download_video allowList getDomain saveDir cfgDomain
        FetchOutcome.ok fs req).resp.dl_url =
      some ((if cfgDomain = "" then "http://localhost:5001" else cfgDomain)
        ++ "/static/videos/" ++ (req.video_id ++ ".mp4")) := by
  have h1 : download_video allowList getDomain saveDir cfgDomain
      FetchOutcome.ok fs req =
      ⟨⟨200, 200, "成功",
        some ((if cfgDomain = "" then "http://localhost:5001" else cfgDomain)
          ++ "/static/videos/" ++ (req.video_id ++ ".mp4")), true⟩,
        (saveDir ++ "/" ++ (req.video_id ++ ".mp4")) :: fs, 1⟩ := by
    simp [download_video, if_neg hdom, if_neg hpath]
  have hmem : saveDir ++ "/" ++ (req.video_id ++ ".mp4") ∈
      (saveDir ++ "/" ++ (req.video_id ++ ".mp4")) :: fs :=
    List.mem_cons_self _ _
  have h2 : download_video allowList getDomain saveDir cfgDomain fetch2
      ((saveDir ++ "/" ++ (req.video_id ++ ".mp4")) :: fs) req =
      ⟨⟨200, 200, "成功",
        some ((if cfgDomain = "" then "http://localhost:5001" else cfgDomain)
          ++ "/static/videos/" ++ (req.video_id ++ ".mp4")), true⟩,
        (saveDir ++ "/" ++ (req.video_id ++ ".mp4")) :: fs, 0⟩ := by
    simp [download_video, if_neg hdom, if_pos hmem]
  rw [h1]
  rw [h2]
  exact ⟨rfl, rfl, rfl, rfl, rfl⟩

/-- Witness for C5's amended theorem at a concrete request pair. -/
theorem download_idempotent_by_presence_witness :
    (download_video [] (fun _ => "remote.example.com") "videos" ""
        FetchOutcome.ok [] ⟨"https://remote.example.com/a", "v6"⟩).resp.succ
      = true ∧
    (download_video [] (fun _ => "remote.example.com") "videos" ""
        FetchOutcome.ok
        (download_video [] (fun _ => "remote.example.com") "videos" ""
          FetchOutcome.ok [] ⟨"https://remote.example.com/a", "v6"⟩).fs
        ⟨"https://remote.example.com/a", "v6"⟩).fetches = 0 :=
  have h := download_idempotent_by_presence [] (fun _ => "remote.example.com")
    "videos" "" FetchOutcome.ok [] ⟨"https://remote.example.com/a", "v6"⟩
    (by decide) (by decide)
  ⟨h.1, h.2.1⟩

/-- C10 (implicit): once request validation has passed, every return
path of the download endpoint other than the catch-all exception handler
— pass-through, cached file, successful download and both
download-failure fallbacks — yields `retcode = 200`, `succ = true` and a
non-null `data.download_url`. -/
theorem download_always_success_shaped (validationError : Option ApiResp)
    (allowList : List String) (getDomain : String → String)
    (saveDir cfgDomain : String) (fetch : FetchOutcome)
    (fs : List String) (req : DlRequest)
    (hval : validationError = none) :
    (download_endpoint validationError allowList getDomain saveDir
        cfgDomain fetch fs req).resp.retcode = 200 ∧
    (download_endpoint validationError allowList getDomain saveDir
        cfgDomain fetch fs req).resp.succ = true ∧
    (download_endpoint validationError allowList getDomain saveDir
        cfgDomain fetch fs req).resp.dl_url.isSome = true := by
  subst hval
  simp only [download_endpoint, download_video]
  split
  · exact ⟨rfl, rfl, rfl⟩
  · split
    · exact ⟨rfl, rfl, rfl⟩
    · cases fetch <;> exact ⟨rfl, rfl, rfl⟩

/-- Witness for C10 at a concrete validated request. -/
theorem download_always_success_shaped_witness :
    (download_endpoint none [] (fun _ => "remote.example.com") "videos"
        "" FetchOutcome.saveError []
        ⟨"https://remote.example.com/a", "v5"⟩).resp.retcode = 200 ∧
    (download_endpoint none [] (fun _ => "remote.example.com") "videos"
        "" FetchOutcome.saveError []
        ⟨"https://remote.example.com/a", "v5"⟩).resp.succ = true ∧
    (download_endpoint none [] (fun _ => "remote.example.com") "videos"
        "" FetchOutcome.saveError []
        ⟨"https://remote.example.com/a", "v5"⟩).resp.dl_url.isSome = true :=
  download_always_success_shaped none [] (fun _ => "remote.example.com")
    "videos" "" FetchOutcome.saveError []
    ⟨"https://remote.example.com/a", "v5"⟩ rfl

/-- Outcome of launching the external transcoder (`subprocess.run` in
`VideoClient.merge_video_audio`, `app.py` lines 279-301): `missing`
models the `FileNotFoundError` raised when `ffmpeg` is not installed;
`ran code err wrote` models a completed process with exit code `code`
and diagnostic text `err` on stderr.  Modelled from the spec: the
external tool's filesystem effect is abstracted by `wrote`, which
records whether the tool produced the output file. -/
inductive ToolRun
  | missing
  | ran (code : Int) (err : String) (wrote : Bool)
deriving Repr, DecidableEq

/-- Result of one merge call: the `(bool, str)` pair returned by
`merge_video_audio` plus the file system afterwards. -/
structure MergeOutcome where
  ok : Bool
  msg : String
  fs : List String
deriving Repr, DecidableEq

/-- `VideoClient.merge_video_audio` (`app.py` lines 279-301, the same
logic as `test_client/client_bilibili.py` lines 45-71): run `ffmpeg`; on
exit code 0 delete both input temporaries and return success; on a
non-zero exit return the diagnostic text and touch nothing; on
`FileNotFoundError` return the ffmpeg-not-installed message. -/
def merge_video_audio (run : ToolRun) (fs : List String)
    (video_path audio_path output_path : String) : MergeOutcome :=
  match run with
  | .missing => ⟨false, "未安装 ffmpeg，请先安装 ffmpeg", fs⟩
  | .ran code err wrote =>
    let fs1 := if wrote then output_path :: fs else fs
    if code = 0 then
      ⟨true, "合并成功", (fs1.erase video_path).erase audio_path⟩
    else
      ⟨false, "合并失败: " ++ err, fs1⟩

/-- Strings are equal exactly when their character lists are. -/
theorem string_data_append (s t : String) :
    (s ++ t).data = s.data ++ t.data := by
  cases s
  cases t
  rfl

/-- The tool-unavailable message is distinct from every non-zero-exit
message (their first characters differ). -/
theorem merge_fail_msg_ne (err : String) :
    ("合并失败: " ++ err) ≠ "未安装 ffmpeg，请先安装 ffmpeg" := by
  intro h
  have h2 := congrArg (fun s : String => s.data.head?) h
  have h3 : (some '合' : Option Char) = some '未' := h2
  exact absurd h3 (by decide)

/-- C8: on success (exit 0, the tool wrote the output) the merged output
file exists and both input temporaries are deleted; when the tool is not
installed the result is the tool-unavailable message — distinct from
every non-zero-exit message — and both inputs still exist; on any
failure the inputs are preserved. -/
theorem merge_video_audio_contract (fs : List String)
    (video_path audio_path output_path : String)
    (hv : video_path ∈ fs) (ha : audio_path ∈ fs)
    (hnd : fs.Nodup) (hout : output_path ∉ fs)
    (hov : output_path ≠ video_path) (hoa : output_path ≠ audio_path) :
    (∀ err,
      (merge_video_audio (ToolRun.ran 0 err true) fs video_path
          audio_path output_path).ok = true ∧
      output_path ∈ (merge_video_audio (ToolRun.ran 0 err true) fs
          video_path audio_path output_path).fs ∧
      video_path ∉ (merge_video_audio (ToolRun.ran 0 err true) fs
          video_path audio_path output_path).fs ∧
      audio_path ∉ (merge_video_audio (ToolRun.ran 0 err true) fs
          video_path audio_path output_path).fs)
    ∧
    ((merge_video_audio ToolRun.missing fs video_path audio_path
        output_path).ok = false ∧
      (merge_video_audio ToolRun.missing fs video_path audio_path
        output_path).msg = "未安装 ffmpeg，请先安装 ffmpeg" ∧
      video_path ∈ (merge_video_audio ToolRun.missing fs video_path
        audio_path output_path).fs ∧
      audio_path ∈ (merge_video_audio ToolRun.missing fs video_path
        audio_path output_path).fs)
    ∧
    (∀ code err wrote, code ≠ 0 →
      (merge_video_audio (ToolRun.ran code err wrote) fs video_path
          audio_path output_path).ok = false ∧
      video_path ∈ (merge_video_audio (ToolRun.ran code err wrote) fs
          video_path audio_path output_path).fs ∧
      audio_path ∈ (merge_video_audio (ToolRun.ran code err wrote) fs
          video_path audio_path output_path).fs ∧
      (merge_video_audio (ToolRun.ran code err wrote) fs video_path
          audio_path output_path).msg ≠
        (merge_video_audio ToolRun.missing fs video_path audio_path
          output_path).msg) := by
  have hnd1 : (output_path :: fs).Nodup := List.nodup_cons.mpr ⟨hout, hnd⟩
  refine ⟨?_, ?_, ?_⟩
  · intro err
    simp only [merge_video_audio, if_pos rfl, if_true]
    refine ⟨trivial, ?_, ?_, ?_⟩
    · exact (List.mem_erase_of_ne hoa).mpr
        ((List.mem_erase_of_ne hov).mpr (List.mem_cons_self _ _))
    · intro hmem
      exact hnd1.not_mem_erase (List.mem_of_mem_erase hmem)
    · exact (hnd1.erase video_path).not_mem_erase
  · exact ⟨rfl, rfl, hv, ha⟩
  · intro code err wrote hcode
    simp only [merge_video_audio, if_neg hcode]
    refine ⟨trivial, ?_, ?_, merge_fail_msg_ne err⟩
    · cases wrote <;> simp [hv]
    · cases wrote <;> simp [ha]

/-- Witness for C8 at concrete temporary files. -/
theorem merge_video_audio_contract_witness :
    ((merge_video_audio (ToolRun.ran 0 "" true) ["t_video.m4s", "t_audio.m4s"]
        "t_video.m4s" "t_audio.m4s" "t.mp4").ok = true ∧
      "t.mp4" ∈ (merge_video_audio (ToolRun.ran 0 "" true)
        ["t_video.m4s", "t_audio.m4s"] "t_video.m4s" "t_audio.m4s"
        "t.mp4").fs ∧
      "t_video.m4s" ∉ (merge_video_audio (ToolRun.ran 0 "" true)
        ["t_video.m4s", "t_audio.m4s"] "t_video.m4s" "t_audio.m4s"
        "t.mp4").fs) ∧
    ((merge_video_audio ToolRun.missing ["t_video.m4s", "t_audio.m4s"]
        "t_video.m4s" "t_audio.m4s" "t.mp4").ok = false ∧
      "t_video.m4s" ∈ (merge_video_audio ToolRun.missing
        ["t_video.m4s", "t_audio.m4s"] "t_video.m4s" "t_audio.m4s"
        "t.mp4").fs) :=
  have h := merge_video_audio_contract ["t_video.m4s", "t_audio.m4s"]
    "t_video.m4s" "t_audio.m4s" "t.mp4" (by decide) (by decide)
    (by decide) (by decide) (by decide) (by decide)
  ⟨⟨(h.1 "").1, (h.1 "").2.1, (h.1 "").2.2.1⟩, ⟨h.2.1.1, h.2.1.2.2.1⟩⟩

/-- Program counter of one request-handling task executing the download
branch for an absent, non-allow-listed target: first the
`os.path.exists` check, then (if the file was absent) the fetch that
streams the body into the target path.  There is no lock of any kind in
`download_video` around this sequence. -/
inductive Phase
  | checking
  | fetching
  | finished
deriving Repr, DecidableEq

/-- Shared state of two concurrent download requests for the same
`video_id`: whether the target file exists, how many underlying
downloads (fetch-and-write sequences) have run, and each task's program
counter. -/
structure RaceState where
  fileExists : Bool
  downloads : Nat
  pc1 : Phase
  pc2 : Phase
deriving Repr, DecidableEq

/-- One atomic action of a task, as written in the download branch: the
existence check observes the shared file system and decides; the fetch
performs the download, making the file exist. -/
def phaseStep : Phase → Bool → Nat → Phase × Bool × Nat
  | .checking, fileStatus, downloads =>
    if fileStatus then (.finished, fileStatus, downloads)
    else (.fetching, fileStatus, downloads)
  | .fetching, _, downloads => (.finished, true, downloads + 1)
  | .finished, fileStatus, downloads => (.finished, fileStatus, downloads)

/-- Interleaved execution: `who = true` advances task 1, otherwise
task 2. -/
def raceStep (s : RaceState) (who : Bool) : RaceState :=
  if who then
    let r := phaseStep s.pc1 s.fileExists s.downloads
    ⟨r.2.1, r.2.2, r.1, s.pc2⟩
  else
    let r := phaseStep s.pc2 s.fileExists s.downloads
    ⟨r.2.1, r.2.2, s.pc1, r.1⟩

/-- Run a schedule of atomic actions. -/
def raceRun : RaceState → List Bool → RaceState
  | s, [] => s
  | s, w :: ws => raceRun (raceStep s w) ws

/-- Both tasks start at the existence check with the file absent. -/
def raceInit : RaceState := ⟨false, 0, Phase.checking, Phase.checking⟩

/-- C9: the check-then-download sequence of `download_video` is not
serialized per `video_id` — under the interleaving in which both tasks
pass the existence check before either writes, both tasks complete and
two underlying downloads occur, violating the at-most-one-download
claim; a serialized interleaving performs only one. -/
theorem concurrent_same_id_double_download :
    (raceRun raceInit [true, false, true, false]).downloads = 2 ∧
    (raceRun raceInit [true, false, true, false]).pc1 = Phase.finished ∧
    (raceRun raceInit [true, false, true, false]).pc2 = Phase.finished ∧
    (raceRun raceInit [true, true, false, false]).downloads = 1 := by
  decide

end VideoParser
